import Mathlib

/-!
Shallow embedding of the allocator in neo-alloc.c (malloc, free, calloc, realloc,
debug_int) for an LP64 target: addresses and size_t values are natural numbers,
size_t arithmetic is taken modulo 2^64 where the C code can wrap, and the heap is
a byte-addressed write log (most recent write first) over zero-initialized,
anonymously mapped pages.  Dereferencing an address outside the mapped heap
region is a segmentation fault, modelled as the error result of Except.

Pointer arithmetic is transcribed exactly as C computes it: arithmetic on a
value of type pointer-to-header scales by sizeof(header_s) = 16, while
arithmetic on void pointers (a GNU extension used by the source) moves one byte
per unit.
-/

deriving instance DecidableEq for Except

namespace NeoAlloc

/-- sizeof(void*) on the LP64 target. -/
def WORD_SIZE : Nat := 8

/-- WORD_SIZE * 2, the alignment boundary used for padding. -/
def DOUBLE_WORD_SIZE : Nat := WORD_SIZE * 2

/-- sizeof(header_s): a size_t field plus a pointer field, 16 bytes. -/
def HEADER_SIZE : Nat := 16

/-- HEAP_SIZE = GB(2) = 2 * 1024 * 1024 * 1024 bytes. -/
def HEAP_SIZE : Nat := 2147483648

/-- Modulus of 64-bit size_t / pointer arithmetic. -/
def U64 : Nat := 18446744073709551616

/-- Heap memory as a write log: (address, byte) pairs, most recent write first.
Unwritten mapped bytes read as 0 (MAP_ANONYMOUS zero-fill). -/
abbrev Mem := List (Nat × Nat)

/-- Read one byte from the write log (0 when never written). -/
def readByte : Mem → Nat → Nat
  | [], _ => 0
  | (b, val) :: rest, x => if x = b then val else readByte rest x

/-- Store a 64-bit little-endian word as eight byte writes. -/
def writeWordRaw (m : Mem) (a v : Nat) : Mem :=
  (a, v % 256) ::
  (a + 1, v / 256 % 256) ::
  (a + 2, v / 65536 % 256) ::
  (a + 3, v / 16777216 % 256) ::
  (a + 4, v / 4294967296 % 256) ::
  (a + 5, v / 1099511627776 % 256) ::
  (a + 6, v / 281474976710656 % 256) ::
  (a + 7, v / 72057594037927936 % 256) :: m

/-- Read a 64-bit little-endian word. -/
def readWordRaw (m : Mem) (a : Nat) : Nat :=
  readByte m a
  + readByte m (a + 1) * 256
  + readByte m (a + 2) * 65536
  + readByte m (a + 3) * 16777216
  + readByte m (a + 4) * 4294967296
  + readByte m (a + 5) * 1099511627776
  + readByte m (a + 6) * 281474976710656
  + readByte m (a + 7) * 72057594037927936

/-- The global allocator state of neo-alloc.c: free_ptr (the bump frontier,
0 = NULL = heap not yet initialized), start_ptr and end_ptr (heap bounds),
free_list_head (0 = NULL = empty free list), and heap memory. -/
structure AllocState where
  free_ptr : Nat
  start_ptr : Nat
  end_ptr : Nat
  free_list_head : Nat
  mem : Mem
deriving DecidableEq

/-- All globals start zeroed / NULL. -/
def initialState : AllocState := ⟨0, 0, 0, 0, []⟩

/-- True when the n bytes at address a lie inside the mapped heap region. -/
def inHeapB (s : AllocState) (a n : Nat) : Bool :=
  decide (s.start_ptr ≤ a) && decide (a + n ≤ s.end_ptr)

/-- Dereference a word: segfault (error) outside the mapped region. -/
def readWord (s : AllocState) (a : Nat) : Except Unit Nat :=
  if inHeapB s a 8 then .ok (readWordRaw s.mem a) else .error ()

/-- Store a word: segfault (error) outside the mapped region. -/
def writeWord (s : AllocState) (a v : Nat) : Except Unit AllocState :=
  if inHeapB s a 8 then .ok { s with mem := writeWordRaw s.mem a v } else .error ()

/-- Read a single byte with a bounds check. -/
def readByteC (s : AllocState) (a : Nat) : Except Unit Nat :=
  if inHeapB s a 1 then .ok (readByte s.mem a) else .error ()

/-- Write a single byte with a bounds check. -/
def writeByteC (s : AllocState) (a v : Nat) : Except Unit AllocState :=
  if inHeapB s a 1 then .ok { s with mem := (a, v % 256) :: s.mem } else .error ()

/-- init(): on first use record the mmap result as free_ptr / start_ptr, and
end_ptr = start_ptr + HEAP_SIZE; otherwise do nothing.  The parameter base is
the address returned by mmap (nonzero on success). -/
def init (base : Nat) (s : AllocState) : AllocState :=
  if s.free_ptr = 0 then
    { s with free_ptr := base, start_ptr := base, end_ptr := base + HEAP_SIZE }
  else s

/-- The padded block size computed by malloc: size plus the excess needed to
reach a multiple of DOUBLE_WORD_SIZE. -/
def padded_size (size : Nat) : Nat :=
  size + (if size % DOUBLE_WORD_SIZE ≠ 0 then DOUBLE_WORD_SIZE - size % DOUBLE_WORD_SIZE else 0)

/-- The free-list search loop of malloc.  previous and current are header
pointers (0 = NULL); fuel bounds the number of iterations (error on
exhaustion, i.e. the loop did not return within fuel steps).

Transcribed faithfully from the source, including its defects: on a match it
executes previous->next = current->next even when previous is NULL (a store
through address 0 + 8, a segfault), it never updates free_list_head, and it
returns current + sizeof(header_s) where current has type header_s pointer,
which C scales to current + 16 * 16 bytes. -/
def find_fit (s : AllocState) (size : Nat) :
    Nat → Nat → Nat → Except Unit (Option (Nat × AllocState))
  | 0, _, _ => .error ()
  | fuel + 1, previous, current =>
    if current = 0 then .ok none
    else
      match readWord s current with
      | .error e => .error e
      | .ok csize =>
        if size ≤ csize then
          match readWord s (current + 8) with
          | .error e => .error e
          | .ok cnext =>
            match writeWord s (previous + 8) cnext with
            | .error e => .error e
            | .ok s2 => .ok (some (current + HEADER_SIZE * HEADER_SIZE, s2))
        else
          match readWord s (current + 8) with
          | .error e => .error e
          | .ok cnext => find_fit s size fuel current cnext

/-- The frontier-carving tail of malloc: pad the size, check space with the
size_t comparison (intptr_t)free_ptr + total_size >= end_ptr, store the new
header {size, NULL} at free_ptr, return to_return + sizeof(header_s) (header
pointer arithmetic: 256 bytes past the header), and advance free_ptr (a void
pointer, byte arithmetic) by size + sizeof(header_s). -/
def carve (s : AllocState) (size : Nat) : Except Unit (Option Nat × AllocState) :=
  let block_size := padded_size size % U64
  let total_size := (block_size + HEADER_SIZE) % U64
  if s.end_ptr ≤ (s.free_ptr + total_size) % U64 then
    .ok (none, s)
  else
    match writeWord s s.free_ptr size with
    | .error e => .error e
    | .ok s1 =>
      match writeWord s1 (s.free_ptr + 8) 0 with
      | .error e => .error e
      | .ok s2 =>
        .ok (some (s.free_ptr + HEADER_SIZE * HEADER_SIZE),
             { s2 with free_ptr := (s.free_ptr + size + HEADER_SIZE) % U64 })

/-- malloc(size): init, return NULL on size 0, otherwise search the free list
first and fall back to carving at the frontier. -/
def malloc (base : Nat) (s0 : AllocState) (size fuel : Nat) :
    Except Unit (Option Nat × AllocState) :=
  let s := init base s0
  if size = 0 then .ok (none, s)
  else if s.free_list_head ≠ 0 then
    match find_fit s size fuel 0 s.free_list_head with
    | .error e => .error e
    | .ok (some (q, s2)) => .ok (some q, s2)
    | .ok none => carve s size
  else carve s size

/-- free(ptr): NULL is a no-op; otherwise compute ptr_header = ptr -
sizeof(header_s) (void-pointer arithmetic: 16 bytes), set free_list_head to it,
and store the previous head into ptr_header->next. -/
def free (s : AllocState) (p : Nat) : Except Unit AllocState :=
  if p = 0 then .ok s
  else
    let ptr_header := p - HEADER_SIZE
    writeWord { s with free_list_head := ptr_header } (ptr_header + 8) s.free_list_head

/-- memcpy of k bytes from src + i onward to dst + i onward, front to back. -/
def memcpy_loop (dst src : Nat) : Nat → Nat → AllocState → Except Unit AllocState
  | _, 0, s => .ok s
  | i, k + 1, s =>
    match readByteC s (src + i) with
    | .error e => .error e
    | .ok b =>
      match writeByteC s (dst + i) b with
      | .error e => .error e
      | .ok s2 => memcpy_loop dst src (i + 1) k s2

/-- memset of k zero bytes at dst + i onward, front to back. -/
def memset_loop (dst : Nat) : Nat → Nat → AllocState → Except Unit AllocState
  | _, 0, s => .ok s
  | i, k + 1, s =>
    match writeByteC s (dst + i) 0 with
    | .error e => .error e
    | .ok s2 => memset_loop dst (i + 1) k s2

/-- calloc(nmemb, size): block_size = nmemb * size in size_t arithmetic,
malloc it, and zero the block when the allocation succeeded. -/
def calloc (base : Nat) (s : AllocState) (nmemb size fuel : Nat) :
    Except Unit (Option Nat × AllocState) :=
  let block_size := nmemb * size % U64
  match malloc base s block_size fuel with
  | .error e => .error e
  | .ok (none, s1) => .ok (none, s1)
  | .ok (some p, s1) =>
    match memset_loop p 0 block_size s1 with
    | .error e => .error e
    | .ok s2 => .ok (some p, s2)

/-- realloc(ptr, size), transcribed faithfully: NULL delegates to malloc; size
0 frees; otherwise block_size is read from the header_s at ptr -
sizeof(header_s) (void-pointer arithmetic, 16 bytes); a non-growing size is
stored through the header_s pointer ptr - 1 (void-pointer arithmetic, ONE
byte before the payload) and ptr returned; a growing size mallocs a new block,
copies block_size bytes, frees the old block, and returns the new one (or NULL
without freeing when malloc failed). -/
def realloc (base : Nat) (s : AllocState) (p size fuel : Nat) :
    Except Unit (Option Nat × AllocState) :=
  if p = 0 then malloc base s size fuel
  else if size = 0 then
    match free s p with
    | .error e => .error e
    | .ok s1 => .ok (none, s1)
  else
    match readWord s (p - HEADER_SIZE) with
    | .error e => .error e
    | .ok block_size =>
      if size ≤ block_size then
        match writeWord s (p - 1) size with
        | .error e => .error e
        | .ok s1 => .ok (some p, s1)
      else
        match malloc base s size fuel with
        | .error e => .error e
        | .ok (none, s1) => .ok (none, s1)
        | .ok (some np, s1) =>
          match memcpy_loop np p 0 block_size s1 with
          | .error e => .error e
          | .ok s2 =>
            match free s2 p with
            | .error e => .error e
            | .ok s3 => .ok (some np, s3)

/-- Run a list of malloc calls, requiring every one of them to succeed, and
collect the returned payload pointers in order. -/
def seqMalloc (base fuel : Nat) : List Nat → AllocState → Except Unit (List Nat × AllocState)
  | [], s => .ok ([], s)
  | n :: rest, s =>
    match malloc base s n fuel with
    | .error e => .error e
    | .ok (none, _) => .error ()
    | .ok (some p, s1) =>
      match seqMalloc base fuel rest s1 with
      | .error e => .error e
      | .ok (ps, s2) => .ok (p :: ps, s2)

/-- The digit-building loop of debug_int: the buffer index starts at 15 (the
NUL terminator slot); each iteration decrements the index and prepends the
character code of value tmod 10 + 48 (C truncating division and remainder);
none models a buffer underflow (more digits than remaining slots).  The
resulting list is exactly the character sequence debug() then emits. -/
def debugIntLoop : Int → List Int → Nat → Option (List Int)
  | v, acc, 0 => if v = 0 then some acc else none
  | v, acc, i + 1 =>
    if v = 0 then some acc
    else debugIntLoop (v.tdiv 10) ((v.tmod 10 + 48) :: acc) i

/-- debug_int(value): the characters written to the diagnostic sink. -/
def debug_int (v : Int) : Option (List Int) :=
  debugIntLoop v [] 15

/-- malloc(8) on a fresh heap whose mmap base is 4096: the canonical carve. -/
def c1run : Except Unit (Option Nat × AllocState) := malloc 4096 initialState 8 1

/-- Eleven malloc(8) calls from a fresh heap, then free of the first returned
payload (4352).  The freed pseudo-header 4352 - 16 = 4336 coincides with the
header that the eleventh carve stored at 4336, so the resulting free list head
has a nonzero recorded size and the next malloc will select it. -/
def c2pre : Except Unit AllocState :=
  match seqMalloc 4096 1 (List.replicate 11 8) initialState with
  | .error e => .error e
  | .ok (_, s1) => free s1 4352

/-- The malloc(1) call that makes the first-fit search select the list head. -/
def c2run : Except Unit (Option Nat × AllocState) :=
  match c2pre with
  | .error e => .error e
  | .ok s2 => malloc 4096 s2 1 1

/-- The four consecutive allocations of the specification scenario
(400, 64, 96 and 48 bytes) from a fresh heap based at 4096. -/
def c3run : Except Unit (List Nat × AllocState) :=
  seqMalloc 4096 1 [400, 64, 96, 48] initialState

/-- An initialized heap state whose untouched tail holds exactly 32 bytes:
frontier + (padded 16 + header stride) = end exactly. -/
def c5FullState : AllocState := ⟨2147487712, 4096, 2147487744, 0, []⟩

/-- A small sane initialized heap state used to instantiate the general
theorems on concrete inputs. -/
def smallHeapState : AllocState := ⟨4096, 4096, 8192, 0, []⟩

/-- malloc(32) on a fresh heap: payload 4352, header at 4096 recording 32. -/
def c6pre : Except Unit (Option Nat × AllocState) := malloc 4096 initialState 32 1

/-- realloc of that block down to 16 bytes: the claimed in-place shrink. -/
def c6run : Except Unit (Option Nat × AllocState) :=
  match c6pre with
  | .error e => .error e
  | .ok (_, s1) => realloc 4096 s1 4352 16 1

/-- malloc(8) on a fresh heap, after which the caller stores the byte 171 at
offset 0 of the returned payload (4352): a live block with content. -/
def c7pre : Except Unit AllocState :=
  match malloc 4096 initialState 8 1 with
  | .error e => .error e
  | .ok (_, s1) => .ok { s1 with mem := (4352, 171) :: s1.mem }

/-- realloc of that block up to 24 bytes: the claimed allocate-copy-release. -/
def c7run : Except Unit (Option Nat × AllocState) :=
  match c7pre with
  | .error e => .error e
  | .ok s => realloc 4096 s 4352 24 1

/-- init is a no-op once the heap exists. -/
lemma init_noop (base : Nat) (s : AllocState) (h : s.free_ptr ≠ 0) : init base s = s := by
  simp [init, h]

/-- A word store leaves every byte outside its eight-byte footprint unchanged. -/
lemma readByte_writeWordRaw_out (m : Mem) (a v x : Nat) (h : x < a ∨ a + 8 ≤ x) :
    readByte (writeWordRaw m a v) x = readByte m x := by
  have h0 : x ≠ a := by omega
  have h1 : x ≠ a + 1 := by omega
  have h2 : x ≠ a + 2 := by omega
  have h3 : x ≠ a + 3 := by omega
  have h4 : x ≠ a + 4 := by omega
  have h5 : x ≠ a + 5 := by omega
  have h6 : x ≠ a + 6 := by omega
  have h7 : x ≠ a + 7 := by omega
  simp [writeWordRaw, readByte, h0, h1, h2, h3, h4, h5, h6, h7]

/-- Reading back a stored word returns the stored value. -/
lemma readWordRaw_writeWordRaw (m : Mem) (a v : Nat) (hv : v < U64) :
    readWordRaw (writeWordRaw m a v) a = v := by
  have hv2 : v < 18446744073709551616 := by simpa [U64] using hv
  have e10 : a + 1 ≠ a := by omega
  have e20 : a + 2 ≠ a := by omega
  have e21 : a + 2 ≠ a + 1 := by omega
  have e30 : a + 3 ≠ a := by omega
  have e31 : a + 3 ≠ a + 1 := by omega
  have e32 : a + 3 ≠ a + 2 := by omega
  have e40 : a + 4 ≠ a := by omega
  have e41 : a + 4 ≠ a + 1 := by omega
  have e42 : a + 4 ≠ a + 2 := by omega
  have e43 : a + 4 ≠ a + 3 := by omega
  have e50 : a + 5 ≠ a := by omega
  have e51 : a + 5 ≠ a + 1 := by omega
  have e52 : a + 5 ≠ a + 2 := by omega
  have e53 : a + 5 ≠ a + 3 := by omega
  have e54 : a + 5 ≠ a + 4 := by omega
  have e60 : a + 6 ≠ a := by omega
  have e61 : a + 6 ≠ a + 1 := by omega
  have e62 : a + 6 ≠ a + 2 := by omega
  have e63 : a + 6 ≠ a + 3 := by omega
  have e64 : a + 6 ≠ a + 4 := by omega
  have e65 : a + 6 ≠ a + 5 := by omega
  have e70 : a + 7 ≠ a := by omega
  have e71 : a + 7 ≠ a + 1 := by omega
  have e72 : a + 7 ≠ a + 2 := by omega
  have e73 : a + 7 ≠ a + 3 := by omega
  have e74 : a + 7 ≠ a + 4 := by omega
  have e75 : a + 7 ≠ a + 5 := by omega
  have e76 : a + 7 ≠ a + 6 := by omega
  simp [readWordRaw, writeWordRaw, readByte, e10, e20, e21, e30, e31, e32, e40, e41,
    e42, e43, e50, e51, e52, e53, e54, e60, e61, e62, e63, e64, e65, e70, e71, e72,
    e73, e74, e75, e76]
  omega

/-- Padding rounds up by at most DOUBLE_WORD_SIZE - 1 bytes. -/
lemma padded_size_bounds (size : Nat) :
    size ≤ padded_size size ∧ padded_size size ≤ size + 15 := by
  have hd : DOUBLE_WORD_SIZE = 16 := by norm_num [DOUBLE_WORD_SIZE, WORD_SIZE]
  unfold padded_size
  rw [hd]
  split <;> omega

/-- The digit loop only ever extends its accumulator. -/
lemma debugIntLoop_grows : ∀ (i : Nat) (v : Int) (acc l : List Int),
    debugIntLoop v acc i = some l → acc.length ≤ l.length := by
  intro i
  induction i with
  | zero =>
    intro v acc l h
    by_cases hv : v = 0 <;> simp [debugIntLoop, hv] at h
    exact h ▸ le_rfl
  | succ n ih =>
    intro v acc l h
    by_cases hv : v = 0
    · simp [debugIntLoop, hv] at h
      exact h ▸ le_rfl
    · simp [debugIntLoop, hv] at h
      have := ih _ _ _ h
      simp at this
      omega

/-- The carving tail of malloc, on a sane initialized state with an untouched
frontier and a request small enough not to wrap size_t arithmetic: it fails
atomically exactly when frontier + (padded size + header stride) is greater
than or equal to end, and carves successfully otherwise. -/
lemma carve_boundary (s : AllocState) (size : Nat)
    (hlo : s.start_ptr ≤ s.free_ptr) (hmid : s.free_ptr ≤ s.end_ptr)
    (hend : s.end_ptr ≤ 2 ^ 63) (hsz : size ≤ 2 ^ 62) :
    (s.end_ptr ≤ s.free_ptr + (padded_size size + HEADER_SIZE) →
        carve s size = .ok (none, s)) ∧
    (s.free_ptr + (padded_size size + HEADER_SIZE) < s.end_ptr →
        ∃ s2, carve s size = .ok (some (s.free_ptr + HEADER_SIZE * HEADER_SIZE), s2)) := by
  obtain ⟨hp1, hp2⟩ := padded_size_bounds size
  have hU1 : padded_size size % U64 = padded_size size := by
    apply Nat.mod_eq_of_lt
    simp [U64]
    omega
  have hU2 : (padded_size size + HEADER_SIZE) % U64 = padded_size size + HEADER_SIZE := by
    apply Nat.mod_eq_of_lt
    simp [U64, HEADER_SIZE]
    omega
  have hU3 : (s.free_ptr + (padded_size size + HEADER_SIZE)) % U64
      = s.free_ptr + (padded_size size + HEADER_SIZE) := by
    apply Nat.mod_eq_of_lt
    simp [U64, HEADER_SIZE]
    omega
  constructor
  · intro h
    simp only [carve, hU1, hU2, hU3]
    rw [if_pos h]
  · intro h
    have hw1 : inHeapB s s.free_ptr 8 = true := by
      simp [inHeapB, HEADER_SIZE] at *
      omega
    have hw2 : inHeapB ({ s with mem := writeWordRaw s.mem s.free_ptr size })
        (s.free_ptr + 8) 8 = true := by
      simp [inHeapB, HEADER_SIZE] at *
      omega
    simp only [carve, hU1, hU2, hU3]
    rw [if_neg (by omega)]
    simp [writeWord, hw1, hw2]

/-- Claim C1 (code defect exhibited): the stride between a header and its
payload is not used consistently.  malloc(8) on a fresh heap based at 4096
stores the header (usable size 8) at 4096 yet returns payload 4352 = header +
256, because C scales the addition by sizeof(header_s); free and realloc
recover a header at payload - 16, and indeed free(4352) pushes 4336 - an
address holding no header (its size word reads 0) - instead of 4096.  So
header + stride = payload fails for the one fixed stride the claim requires. -/
theorem C1_header_stride_mismatch :
    Except.map (fun r => r.1) c1run = .ok (some 4352) ∧
    Except.map (fun r => readWordRaw r.2.mem 4096) c1run = .ok 8 ∧
    Except.map (fun r => readWordRaw r.2.mem (4352 - HEADER_SIZE)) c1run = .ok 0 ∧
    (c1run.bind fun r => Except.map (fun s => s.free_list_head) (free r.2 4352)) = .ok 4336 ∧
    4096 + HEADER_SIZE ≠ 4352 ∧ (4352 - HEADER_SIZE ≠ 4096) := by decide

/-- Claim C2 (code defect exhibited): when the first-fit search matches the
free-list head, previous is still NULL and the unlink previous->next =
current->next stores through address 8, a segfault.  Concretely: after eleven
malloc(8) calls and free of the first payload, the list head 4336 records size
8, so malloc(1) selects it immediately and crashes (the model returns the
error result), instead of unlinking the head safely as the claim states. -/
theorem C2_head_unlink_segfault :
    Except.map (fun s => s.free_list_head) c2pre = .ok 4336 ∧
    Except.map (fun s => readWordRaw s.mem 4336) c2pre = .ok 8 ∧
    c2run = .error () := by decide

/-- Claim C3 (code defect exhibited): in the four-allocation scenario
(400, 64, 96, 48 bytes) the returned payloads are 4352, 4768, 4848, 4960, but
the frontier only advances by size + 16 per carve while each payload starts
256 bytes past its header: the second block's header - the word at 4512
recording its usable size 64 - lies wholly inside the first block's 400-byte
payload region [4352, 4752).  The four live blocks do not occupy pairwise
disjoint address ranges; writing the first payload corrupts the later headers. -/
theorem C3_blocks_overlap :
    Except.map (fun r => r.1) c3run = .ok [4352, 4768, 4848, 4960] ∧
    Except.map (fun r => readWordRaw r.2.mem 4512) c3run = .ok 64 ∧
    4352 ≤ 4512 ∧ 4512 + HEADER_SIZE ≤ 4352 + 400 := by decide

/-- Claim C4 (code defect exhibited): carving malloc(8) on a fresh heap
records usable_size 8 - the requested size, not the padded size 16 - and
advances the frontier from 4096 by 8 + 16 = 24 to 4120, not by the padded
total 16 + 16 = 32 to 4128. -/
theorem C4_unpadded_carve :
    Except.map (fun r => readWordRaw r.2.mem 4096) c1run = .ok 8 ∧
    Except.map (fun r => r.2.free_ptr) c1run = .ok (4096 + 8 + HEADER_SIZE) ∧
    padded_size 8 = 16 ∧ (8 : Nat) ≠ padded_size 8 ∧
    4096 + 8 + HEADER_SIZE ≠ 4096 + (padded_size 8 + HEADER_SIZE) := by decide

/-- Claim C5 counterexample: with exactly frontier + total = end (total =
padded size + header stride), the condition frontier + total > end of the
claim does not hold, so the claim predicts a successful carve; the code
compares with >= and returns NULL (atomically, state unchanged). -/
theorem C5_boundary_counterexample :
    malloc 4096 c5FullState 16 1 = .ok (none, c5FullState) ∧
    c5FullState.free_ptr + (padded_size 16 + HEADER_SIZE) = c5FullState.end_ptr ∧
    ¬ c5FullState.end_ptr < c5FullState.free_ptr + (padded_size 16 + HEADER_SIZE) := by decide

/-- Claim C5 as amended: for an initialized sane state, a positive request
small enough not to wrap 64-bit size_t arithmetic (size at most 2^62), and a
free-list search that finds nothing (empty list, or the search returns none),
malloc fails exactly when frontier + (padded size + header stride) is greater
than or equal to end - returning NULL with the whole state unchanged - and
otherwise the carve succeeds and returns the new payload pointer. -/
theorem C5_boundary_general (base : Nat) (s : AllocState) (size fuel : Nat)
    (hinit : s.free_ptr ≠ 0)
    (hlo : s.start_ptr ≤ s.free_ptr) (hmid : s.free_ptr ≤ s.end_ptr)
    (hend : s.end_ptr ≤ 2 ^ 63) (hpos : 0 < size) (hsz : size ≤ 2 ^ 62)
    (hnf : s.free_list_head = 0 ∨ find_fit s size fuel 0 s.free_list_head = .ok none) :
    (s.end_ptr ≤ s.free_ptr + (padded_size size + HEADER_SIZE) →
        malloc base s size fuel = .ok (none, s)) ∧
    (s.free_ptr + (padded_size size + HEADER_SIZE) < s.end_ptr →
        ∃ s2, malloc base s size fuel
          = .ok (some (s.free_ptr + HEADER_SIZE * HEADER_SIZE), s2)) := by
  have hi : init base s = s := init_noop base s hinit
  have hcb := carve_boundary s size hlo hmid hend hsz
  have hmc : malloc base s size fuel = carve s size := by
    by_cases hh : s.free_list_head = 0
    · simp [malloc, hi, hh, hpos.ne']
    · have hf := hnf.resolve_left hh
      simp [malloc, hi, hh, hf, hpos.ne']
  rw [hmc]
  exact hcb

/-- Witness for C5_boundary_general: on the small sane heap the carve branch
fires for size 16 and returns the payload at frontier + 256. -/
theorem C5_boundary_general_witness :
    ∃ s2, malloc 4096 smallHeapState 16 1
      = .ok (some (smallHeapState.free_ptr + HEADER_SIZE * HEADER_SIZE), s2) :=
  (C5_boundary_general 4096 smallHeapState 16 1 (by decide) (by decide) (by decide)
    (by decide) (by decide) (by decide) (Or.inl rfl)).2 (by decide)

/-- Claim C6 (code defect exhibited): after malloc(32) records usable size 32
at header 4096 with payload p = 4352, realloc(p, 16) - a shrink, 0 < 16 <= 32
- does not shrink in place: it reads the usable size from p - 16 = 4336 (which
holds no header; the word is 0), concludes 16 > 0, takes the grow path, and
returns the fresh payload 4400, not p; the old block is pushed onto the free
list (head 4336) rather than staying allocated, and its header still reads 32,
never 16. -/
theorem C6_shrink_not_in_place :
    Except.map (fun r => r.1) c6pre = .ok (some 4352) ∧
    Except.map (fun r => readWordRaw r.2.mem 4096) c6pre = .ok 32 ∧
    Except.map (fun r => r.1) c6run = .ok (some 4400) ∧
    (4400 : Nat) ≠ 4352 ∧
    Except.map (fun r => r.2.free_list_head) c6run = .ok 4336 ∧
    Except.map (fun r => readWordRaw r.2.mem 4096) c6run = .ok 32 := by decide

/-- Claim C7 (code defect exhibited): with a live block of recorded usable
size 8 (header at 4096) whose payload byte 0 the caller set to 171,
realloc(4352, 24) grows via malloc and reaches the copy, but the byte count it
copies is the word read at 4352 - 16 = 4336, which is 0, not the recorded 8:
the new payload 4376 starts with byte 0, and the old content 171 is lost,
contradicting the claim that exactly usable_size bytes are copied. -/
theorem C7_grow_copies_zero_bytes :
    Except.map (fun s => readWordRaw s.mem 4096) c7pre = .ok 8 ∧
    Except.map (fun s => readByte s.mem 4352) c7pre = .ok 171 ∧
    Except.map (fun r => r.1) c7run = .ok (some 4376) ∧
    Except.map (fun r => readByte r.2.mem 4376) c7run = .ok 0 ∧
    (171 : Nat) ≠ 0 := by decide

/-- Claim C8: Deallocate(NULL) is a no-op, and for a non-null in-heap payload
pointer p, free(p) pushes the header p - 16 onto the free list head - the
resulting state has free_list_head = p - 16, the free_link word at p - 8 holds
the prior head - and changes nothing else: frontier and heap bounds are equal,
and every byte outside the eight-byte free_link footprint [p - 8, p), in
particular all payload contents and every other header, reads unchanged. -/
theorem C8_deallocate_push (s : AllocState) (p : Nat)
    (hp : p ≠ 0) (h16 : HEADER_SIZE ≤ p)
    (hlo : s.start_ptr ≤ p - 8) (hhi : p ≤ s.end_ptr) (hhead : s.free_list_head < U64) :
    free s 0 = .ok s ∧
    ∃ s2, free s p = .ok s2 ∧
      s2.free_list_head = p - HEADER_SIZE ∧
      readWordRaw s2.mem (p - 8) = s.free_list_head ∧
      s2.free_ptr = s.free_ptr ∧ s2.start_ptr = s.start_ptr ∧ s2.end_ptr = s.end_ptr ∧
      ∀ a, a < p - 8 ∨ p ≤ a → readByte s2.mem a = readByte s.mem a := by
  have h16b : (16 : Nat) ≤ p := by simpa [HEADER_SIZE] using h16
  have heq : p - HEADER_SIZE + 8 = p - 8 := by
    simp [HEADER_SIZE]
    omega
  have hin : inHeapB { s with free_list_head := p - HEADER_SIZE } (p - 8) 8 = true := by
    simp [inHeapB, HEADER_SIZE] at *
    omega
  refine ⟨by simp [free], ?_⟩
  refine ⟨⟨s.free_ptr, s.start_ptr, s.end_ptr, p - HEADER_SIZE,
    writeWordRaw s.mem (p - 8) s.free_list_head⟩, ?_, rfl, ?_, rfl, rfl, rfl, ?_⟩
  · simp [free, hp, writeWord, hin, heq]
  · exact readWordRaw_writeWordRaw _ _ _ hhead
  · intro a ha
    exact readByte_writeWordRaw_out _ _ _ _ (by omega)

/-- Witness for C8_deallocate_push at the small sane heap and p = 4352. -/
theorem C8_deallocate_push_witness :
    free smallHeapState 0 = .ok smallHeapState ∧
    ∃ s2, free smallHeapState 4352 = .ok s2 ∧
      s2.free_list_head = 4352 - HEADER_SIZE ∧
      readWordRaw s2.mem (4352 - 8) = smallHeapState.free_list_head ∧
      s2.free_ptr = smallHeapState.free_ptr ∧ s2.start_ptr = smallHeapState.start_ptr ∧
      s2.end_ptr = smallHeapState.end_ptr ∧
      ∀ a, a < 4352 - 8 ∨ 4352 ≤ a →
        readByte s2.mem a = readByte smallHeapState.mem a :=
  C8_deallocate_push smallHeapState 4352 (by decide) (by decide) (by decide)
    (by decide) (by decide)

/-- Claim C9: on an initialized heap, malloc(0) returns NULL with the state
untouched, and calloc with zero total byte count also returns NULL with the
state untouched: no block is carved, the free list and frontier are unchanged. -/
theorem C9_zero_size_requests (base : Nat) (s : AllocState) (fuel nmemb sz : Nat)
    (hinit : s.free_ptr ≠ 0) (hzero : nmemb * sz = 0) :
    malloc base s 0 fuel = .ok (none, s) ∧ calloc base s nmemb sz fuel = .ok (none, s) := by
  have hi : init base s = s := init_noop base s hinit
  have hm : malloc base s 0 fuel = .ok (none, s) := by simp [malloc, hi]
  refine ⟨hm, ?_⟩
  simp [calloc, hzero, hm]

/-- Witness for C9_zero_size_requests: malloc(0) and calloc(5, 0). -/
theorem C9_zero_size_requests_witness :
    malloc 4096 smallHeapState 0 1 = .ok (none, smallHeapState) ∧
    calloc 4096 smallHeapState 5 0 1 = .ok (none, smallHeapState) :=
  C9_zero_size_requests 4096 smallHeapState 1 5 0 (by decide) (by decide)

/-- Claim C10: debug_int(0) emits no characters at all (the loop body never
runs, so the empty suffix of the buffer is printed), and only a nonzero value
produces any output. -/
theorem C10_debug_int_empty_on_zero :
    debug_int 0 = some [] ∧ ∀ v : Int, v ≠ 0 → debug_int v ≠ some [] := by
  refine ⟨rfl, ?_⟩
  intro v hv hc
  have hstep : debug_int v
      = if v = 0 then some [] else debugIntLoop (v.tdiv 10) [v.tmod 10 + 48] 14 := rfl
  rw [hstep, if_neg hv] at hc
  have := debugIntLoop_grows 14 _ _ _ hc
  simp at this

/-- Witness for C10_debug_int_empty_on_zero at value 5. -/
theorem C10_debug_int_empty_on_zero_witness :
    debug_int 0 = some [] ∧ debug_int 5 ≠ some [] :=
  ⟨C10_debug_int_empty_on_zero.1, C10_debug_int_empty_on_zero.2 5 (by decide)⟩

end NeoAlloc
